import Mathlib

/-!
Verification development for the job-market analytics service (src/app.py).

The Python source is a Flask application over a pandas DataFrame loaded once
per process.  We embed the dataset as a list of records, numeric score columns
as rationals (the frame drops every row whose scores fail numeric coercion, so
scores of retained records are plain numbers), missing cells (pandas NaN) as
`Option.none`, and each route handler as a pure Lean function from the record
list and its query parameters to the structure it serializes.  The Python builtin
`round(x, 1)` (round-half-to-even at one decimal place) is modelled by
`round1` below.
-/

/-- Floor of a rational, via floor division of numerator by denominator. -/
def qfloor (q : ℚ) : ℤ := q.num.fdiv (q.den : ℤ)

/-- Round a rational to the nearest integer, ties to even, as Python `round`
does for its final integer step. -/
def rhe (q : ℚ) : ℤ :=
  let f := qfloor q
  let frac : ℚ := q - (f : ℚ)
  if frac < 1/2 then f
  else if 1/2 < frac then f + 1
  else if f % 2 = 0 then f else f + 1

/-- Model of Python `round(x, 1)`: scale by ten, round half to even, unscale. -/
def round1 (q : ℚ) : ℚ := ((rhe (q * 10) : ℚ)) / 10

/-- One task of a job, as produced by `json.loads` on the
`Automatability_Analysis` cell.  Each field is optional: a task dict may lack
any key, and a missing key reads back as NaN from the task DataFrame. -/
structure JobTask where
  automatability_flag : Option String
  importance_classification : Option String
  reasoning : Option String
  question : Option (List String)
deriving DecidableEq

/-- One row of the loaded frame `job_data`.  Taxonomy name/code cells may be
NaN (`none`); `auto_score` and `manual_score` are numeric for every retained
row because `load_job_data` drops rows where coercion of either fails. -/
structure JobRecord where
  job_title : String
  job_description : String
  level_1_name : Option String
  level_2_name : Option String
  level_3_name : Option String
  level_4_name : Option String
  level_4_code : Option String
  auto_score : ℚ
  manual_score : ℚ
  tasks : List JobTask
deriving DecidableEq

/-- Raw `Automatability_Analysis` cell before parsing.  `json.loads` is an
external library call, so a string cell carries the outcome that call would
produce: `str b p` is a string whose stripped form starts with a bracket iff
`b`, and on which `json.loads` returns the task list `p = some ts` or raises
(`p = none`).  `na` is a NaN cell and `nonString` any other non-string value. -/
inductive AnalysisCell where
  | na : AnalysisCell
  | nonString : AnalysisCell
  | str (stripStartsBracket : Bool) (loads : Option (List JobTask)) : AnalysisCell
deriving DecidableEq

/-- One row of the spreadsheet before load-time processing.  Score cells are
the result of `pd.to_numeric(..., errors=coerce)`: `none` is NaN. -/
structure RawRecord where
  job_title : String
  job_description : String
  level_1_name : Option String
  level_2_name : Option String
  level_3_name : Option String
  level_4_name : Option String
  level_4_code : Option String
  auto_score : Option ℚ
  manual_score : Option ℚ
  automatability_analysis : AnalysisCell
deriving DecidableEq

/-- The per-cell parse in `load_job_data`:
`json.loads(x) if pd.notna(x) and isinstance(x, str) and x.strip().startswith(chr(91)) else []`.
A string that passes all three guards but is invalid JSON makes `json.loads`
raise, which propagates out of `DataFrame.apply`. -/
def parse_analysis : AnalysisCell → Except Unit (List JobTask)
  | .na => .ok []
  | .nonString => .ok []
  | .str false _ => .ok []
  | .str true (some ts) => .ok ts
  | .str true none => .error ()

/-- Build the retained `JobRecord` from a raw row that survived `dropna`;
the score cells of such a row are numeric (`getD` never sees `none` there). -/
def toJobRecord (r : RawRecord) (ts : List JobTask) : JobRecord :=
  { job_title := r.job_title
    job_description := r.job_description
    level_1_name := r.level_1_name
    level_2_name := r.level_2_name
    level_3_name := r.level_3_name
    level_4_name := r.level_4_name
    level_4_code := r.level_4_code
    auto_score := r.auto_score.getD 0
    manual_score := r.manual_score.getD 0
    tasks := ts }

/-- Run `parse_analysis` over the kept rows; the first raising cell aborts the
whole load (the exception is only caught by the outer try of
`load_job_data`). -/
def parse_all : List RawRecord → Except Unit (List JobRecord)
  | [] => .ok []
  | r :: rs => do
      let ts ← parse_analysis r.automatability_analysis
      let rest ← parse_all rs
      pure (toJobRecord r ts :: rest)

/-- Model of `load_job_data` on an already-read spreadsheet: coerce scores
(already reflected in `RawRecord`), drop rows with a NaN score, then parse
every task payload.  Any exception — including `json.loads` raising inside
`apply` — is caught by the outer handler, which reports failure and leaves
`job_data` unset (`none`). -/
def load_job_data (raws : List RawRecord) : Option (List JobRecord) :=
  let kept := raws.filter fun r => r.auto_score.isSome && r.manual_score.isSome
  match parse_all kept with
  | .ok records => some records
  | .error _ => none

/-- Taxonomy name of a record at a textual level parameter.  The columns
of the frame contain `level_i_name` exactly for i = 1..4, so the source test
`level_column in job_data.columns` (with `level_column` the interpolation of
the level into the column-name pattern) holds iff the level string is one of
these four. -/
def levelName (r : JobRecord) (level : String) : Option String :=
  if level = "1" then r.level_1_name
  else if level = "2" then r.level_2_name
  else if level = "3" then r.level_3_name
  else if level = "4" then r.level_4_name
  else none

/-- Test modelling `level_column in job_data.columns` for the name columns. -/
def levelColumnKnown (level : String) : Bool :=
  level ∈ (["1", "2", "3", "4"] : List String)

/-- The filtering block repeated verbatim at the top of the risk-distribution,
jobs, task-analysis and automation-matrix routes:
start from the whole frame; only when a category was passed, and only when the
interpolated level column exists, restrict to rows whose cell at that column
equals the category.  With an unknown level the frame is left unfiltered. -/
def filter_view (records : List JobRecord) (level : String)
    (category : Option String) : List JobRecord :=
  match category with
  | none => records
  | some c =>
      if levelColumnKnown level then
        records.filter fun r => levelName r level == some c
      else
        records

/-- Mean of a pandas numeric Series: NaN (`none`) on an empty series. -/
def seriesMean (xs : List ℚ) : Option ℚ :=
  if xs.isEmpty then none else some (xs.sum / (xs.length : ℚ))

/-- Output of the `/api/stats` route (the fields the rollup properties are
about; `unique_level_4_categories` and `sector_count` are independent
`nunique` counts and are not modelled).  A `none` mean is a NaN in the JSON
payload. -/
structure Stats where
  total_jobs : ℕ
  avg_auto_score : Option ℚ
  avg_manual_score : Option ℚ
deriving DecidableEq

/-- Model of `get_stats`: `round(series.mean(), 1)` with no emptiness guard, so
an empty frame yields NaN means (`round` of NaN is NaN). -/
def get_stats (records : List JobRecord) : Stats :=
  { total_jobs := records.length
    avg_auto_score := (seriesMean (records.map (·.auto_score))).map round1
    avg_manual_score := (seriesMean (records.map (·.manual_score))).map round1 }

/-- The `category_stats` block of the paginated `/api/jobs` response: here the
means are guarded, an empty view reports the number 0. -/
structure CategoryStats where
  total_jobs : ℕ
  avg_auto_score : ℚ
  avg_manual_score : ℚ
deriving DecidableEq

/-- Model of the `category_stats` computation in `get_jobs`. -/
def category_stats (view : List JobRecord) : CategoryStats :=
  { total_jobs := view.length
    avg_auto_score :=
      if view.isEmpty then 0
      else round1 ((view.map (·.auto_score)).sum / (view.length : ℚ))
    avg_manual_score :=
      if view.isEmpty then 0
      else round1 ((view.map (·.manual_score)).sum / (view.length : ℚ)) }

/-- First-seen-order list of the distinct values of a series, with their
multiplicities, before sorting. -/
def distinctCounts (xs : List String) : List (String × ℕ) :=
  (xs.foldl (fun acc v => if v ∈ acc then acc else acc ++ [v]) []).map
    fun k => (k, xs.count k)

/-- Stable insertion keeping larger counts first. -/
def insertByCountDesc (p : String × ℕ) :
    List (String × ℕ) → List (String × ℕ)
  | [] => [p]
  | q :: qs => if q.2 < p.2 then p :: q :: qs else q :: insertByCountDesc p qs

/-- Model of `Series.value_counts()`: distinct non-NaN values with their
counts, sorted by count descending. -/
def value_counts (xs : List String) : List (String × ℕ) :=
  (distinctCounts xs).foldr insertByCountDesc []

/-- Model of `get_categories`: an unknown level column is rejected with a 400
caller error; otherwise the NaN-dropping `value_counts` of the level column. -/
def get_categories (records : List JobRecord) (level : String) :
    Except String (List (String × ℕ)) :=
  if levelColumnKnown level then
    .ok (value_counts (records.filterMap (levelName · level)))
  else
    .error ("Level " ++ level ++ " not available")

/-- Predicate of the low-risk mask `auto_score < 30`. -/
def isLow (r : JobRecord) : Bool := r.auto_score < 30

/-- Predicate of the medium-risk mask `auto_score >= 30 and auto_score < 60`. -/
def isMedium (r : JobRecord) : Bool := 30 ≤ r.auto_score && r.auto_score < 60

/-- Predicate of the high-risk mask `auto_score >= 60`. -/
def isHigh (r : JobRecord) : Bool := 60 ≤ r.auto_score

/-- Output of `/api/risk_distribution`. -/
structure RiskDist where
  low_risk : ℕ
  medium_risk : ℕ
  high_risk : ℕ
  total : ℕ
deriving DecidableEq

/-- Model of `get_risk_distribution`: filter, then count each mask. -/
def get_risk_distribution (records : List JobRecord) (category : Option String)
    (level : String) : RiskDist :=
  let fd := filter_view records level category
  { low_risk := (fd.filter isLow).length
    medium_risk := (fd.filter isMedium).length
    high_risk := (fd.filter isHigh).length
    total := fd.length }

/-- One entry of the paginated `jobs` list in the `/api/jobs` response.  The
interpolated `level_{level}_name`/`_code` columns are echoed through
`row.get` and do not affect the pagination contract; they are carried as the
raw optional cells. -/
structure JobOut where
  job_title : String
  job_description : String
  auto_score : ℚ
  manual_score : ℚ
  automatability_tasks : List JobTask
deriving DecidableEq

/-- Paginated `/api/jobs` response (the `fetch_all` branch returns a plain
score list instead and is not involved in the pagination contract). -/
structure JobsPage where
  jobs : List JobOut
  page : ℕ
  per_page : ℕ
  has_more : Bool
  category_stats : CategoryStats
deriving DecidableEq

/-- Model of the paginated branch of `get_jobs`.  `page` and `per_page` are
already-parsed numbers; pages below 1 would use Python negative-index slicing
and are outside the modelled domain (the properties below assume `1 ≤ page`).
`start_idx = (page - 1) * per_page`, `end_idx = start_idx + per_page`,
`iloc[start_idx:end_idx]` is drop-then-take, and
`has_more = end_idx < len(filtered_data)`. -/
def get_jobs (records : List JobRecord) (category : Option String)
    (level : String) (page per_page : ℕ) : JobsPage :=
  let fd := filter_view records level category
  let start_idx := (page - 1) * per_page
  let paginated := (fd.drop start_idx).take per_page
  { jobs := paginated.map fun r =>
      { job_title := r.job_title
        job_description := r.job_description
        auto_score := round1 r.auto_score
        manual_score := round1 r.manual_score
        automatability_tasks := r.tasks }
    page := page
    per_page := per_page
    has_more := decide (start_idx + per_page < fd.length)
    category_stats := category_stats fd }

/-- A task after the defaulting pass in `get_job_detail`. -/
structure ProcessedTask where
  automatability_flag : Option String
  importance_classification : String
  reasoning : String
  question : Option (List String)
deriving DecidableEq

/-- Single-job payload of `/api/job/(title)`. -/
structure JobDetail where
  job_title : String
  job_description : String
  level_1_name : Option String
  level_2_name : Option String
  level_3_name : Option String
  level_4_name : Option String
  level_4_code : Option String
  auto_score : ℚ
  manual_score : ℚ
  automatability_tasks : List ProcessedTask
deriving DecidableEq

/-- Possible outcomes of `get_job_detail`.  `indexError` is the uncaught
`IndexError` that `.iloc[0]` raises on an empty selection (surfacing as an
HTTP 500, not as the JSON 404 body); `notFound` is the explicit
`Job not found` 404 branch. -/
inductive JobDetailResult where
  | ok (d : JobDetail) : JobDetailResult
  | notFound : JobDetailResult
  | indexError : JobDetailResult
deriving DecidableEq

/-- Model of `get_job_detail`.  The source selects
`job_data[job_data[Job_Title] == job_title].iloc[0]` — on an empty match this
raises before the emptiness test runs.  On a match, `job_row` is a row Series
of a frame with columns, whose `.empty` is always `False`, so the 404 branch
is dead code. -/
def get_job_detail (records : List JobRecord) (job_title : String) :
    JobDetailResult :=
  match records.filter fun r => r.job_title == job_title with
  | [] => .indexError
  | r :: _ =>
      .ok
        { job_title := r.job_title
          job_description := r.job_description
          level_1_name := r.level_1_name
          level_2_name := r.level_2_name
          level_3_name := r.level_3_name
          level_4_name := r.level_4_name
          level_4_code := r.level_4_code
          auto_score := round1 r.auto_score
          manual_score := round1 r.manual_score
          automatability_tasks := r.tasks.map fun t =>
            { automatability_flag := t.automatability_flag
              importance_classification :=
                t.importance_classification.getD "Not specified"
              reasoning := t.reasoning.getD "No reasoning provided"
              question := t.question } }

/-- Flat task table of a view: the concatenation of the parsed task list of
every record, in record order. -/
def all_tasks (view : List JobRecord) : List JobTask :=
  (view.map (·.tasks)).flatten

/-- Column-presence test for `pd.DataFrame(all_tasks)`: the frame takes the
union of the task-dict keys as its columns, so the `automatability_flag`
column exists iff at least one task of the table carries that key.  When the
column is missing, `tasks_df[automatability_flag]` raises an uncaught
`KeyError`. -/
def hasFlagColumn (ts : List JobTask) : Bool :=
  ts.any fun t => t.automatability_flag.isSome

/-- Presence of the `importance_classification` column of the task frame
(union-of-keys semantics, as for `hasFlagColumn`). -/
def hasClassColumn (ts : List JobTask) : Bool :=
  ts.any fun t => t.importance_classification.isSome

/-- Presence of the `question` column of the task frame (union-of-keys
semantics).  A task whose `question` key holds a non-list value is read back
through an `isinstance` guard as the empty list, so it is represented as
`some []` here; the key still makes the column exist. -/
def hasQuestionColumn (ts : List JobTask) : Bool :=
  ts.any fun t => t.question.isSome

/-- The count `(tasks_df[automatability_flag] == Automatable).sum()` count shared
by the task-analysis and automation-matrix routes.  A task whose dict lacks
the key reads as NaN, and NaN compares unequal to the string. -/
def countAutomatable (ts : List JobTask) : ℕ :=
  (ts.filter fun t => t.automatability_flag == some "Automatable").length

/-- ASCII lowercasing over the character list, the semantics of
`.str.lower()` on these class names. -/
def strLower (s : String) : String := ⟨s.data.map Char.toLower⟩

/-- The mask `tasks_df[importance_classification].str.lower() == task_type`:
a missing classification is NaN, `.str.lower()` keeps it NaN, and NaN compares
unequal to every class name. -/
def typeTasks (ts : List JobTask) (task_type : String) : List JobTask :=
  ts.filter fun t =>
    t.importance_classification.map strLower == some task_type

/-- The `automation_by_type` dict of `get_task_analysis`: iterate the three
fixed classes in order, and only when the class mask is non-empty add an entry
with `round(automatable / total * 100, 1)` (the inner zero guard is dead since
the frame, hence `total`, is non-empty there). -/
def automation_by_type (ts : List JobTask) : List (String × ℚ) :=
  (["primary", "secondary", "ancillary"] : List String).filterMap fun task_type =>
    let td := typeTasks ts task_type
    if td.isEmpty then none
    else
      some (task_type,
        if 0 < td.length then
          round1 ((countAutomatable td : ℚ) / (td.length : ℚ) * 100)
        else 0)

/-- Result of `/api/task_analysis`.  The route returns a bare all-zero/empty
shape when the view has no tasks at all, and otherwise the full cross-tab;
the reason-code top-10 lists are independent of the properties below and are
not modelled. -/
inductive TaskAnalysisResult where
  | empty : TaskAnalysisResult
  | keyError : TaskAnalysisResult
  | full (total_tasks : ℕ) (total_jobs : ℕ)
      (automatable : ℕ) (non_automatable : ℕ)
      (primary_count : ℕ) (secondary_count : ℕ) (ancillary_count : ℕ)
      (by_type : List (String × ℚ)) : TaskAnalysisResult
deriving DecidableEq

/-- The `automation_by_type` entries of a result (empty dict on the no-tasks
shape; no payload at all on the crashed shape). -/
def TaskAnalysisResult.byType : TaskAnalysisResult → List (String × ℚ)
  | .empty => []
  | .keyError => []
  | .full _ _ _ _ _ _ _ bt => bt

/-- The `automation_status` pair (automatable, non-automatable) of a full
result. -/
def TaskAnalysisResult.autoStatus : TaskAnalysisResult → Option (ℕ × ℕ)
  | .empty => none
  | .keyError => none
  | .full _ _ a n _ _ _ _ => some (a, n)

/-- Model of `get_task_analysis`: filter the view, flatten the task lists,
return the empty shape when no tasks.  Otherwise the route builds
`pd.DataFrame(all_tasks)` and immediately indexes the `automatability_flag`,
`importance_classification` and (inside `get_top_reasons`) `question`
columns; if any of those keys occurs on no task of the table the column does
not exist and the uncaught `KeyError` aborts the request (`keyError`).  With
all three columns present it returns the full cross-tab: `Automatable` flag
count, lower-cased class distribution, per-class automation percentages, and
`non_automatable` literally `len(all_tasks) - automatable_count`. -/
def get_task_analysis (records : List JobRecord) (category : Option String)
    (level : String) : TaskAnalysisResult :=
  let fd := filter_view records level category
  let ts := all_tasks fd
  if ts.isEmpty then .empty
  else if hasFlagColumn ts && hasClassColumn ts && hasQuestionColumn ts then
    .full ts.length fd.length
      (countAutomatable ts) (ts.length - countAutomatable ts)
      (typeTasks ts "primary").length
      (typeTasks ts "secondary").length
      (typeTasks ts "ancillary").length
      (automation_by_type ts)
  else .keyError

/-- One entry of the `/api/automation_matrix` payload. -/
structure MatrixEntry where
  category : String
  overall_automation_pct : ℚ
  primary_automation_pct : ℚ
  total_tasks : ℕ
  primary_tasks : ℕ
  total_jobs : ℕ
  quadrant : String
deriving DecidableEq

/-- Distinct values in first-seen order (used for group keys). -/
def firstSeen (xs : List String) : List String :=
  xs.foldl (fun acc v => if v ∈ acc then acc else acc ++ [v]) []

/-- Ordered insertion for the ascending group-key order of pandas `groupby`. -/
def insortStr (s : String) : List String → List String
  | [] => [s]
  | x :: xs => if s ≤ x then s :: x :: xs else x :: insortStr s xs

/-- Sort strings ascending (pandas `groupby` emits groups in sorted key
order). -/
def sortStrs (l : List String) : List String := l.foldr insortStr []

/-- The per-group loop of `get_automation_matrix`, in group-key order.  A
group with no tasks is skipped before any task frame exists.  A group with
tasks gets `pd.DataFrame(all_tasks)` built from its own tasks only, and the
route immediately indexes the `automatability_flag` and
`importance_classification` columns: if either key occurs on no task of the
group, the uncaught `KeyError` aborts the whole route (`error`), discarding
every group.  Otherwise the group is classified by the 50 percent thresholds
on the unrounded percentages; the stored percentages are rounded. -/
def automation_matrix_rows (fd : List JobRecord) :
    List String → Except Unit (List MatrixEntry)
  | [] => .ok []
  | k :: ks =>
    let group := fd.filter fun r => r.level_4_name == some k
    let ts := all_tasks group
    if ts.isEmpty then automation_matrix_rows fd ks
    else if hasFlagColumn ts && hasClassColumn ts then
      let total_tasks := ts.length
      let overall_auto_pct : ℚ :=
        (countAutomatable ts : ℚ) / (total_tasks : ℚ) * 100
      let primary_tasks := typeTasks ts "primary"
      let primary_auto_pct : ℚ :=
        if primary_tasks.isEmpty then 0
        else (countAutomatable primary_tasks : ℚ) / (primary_tasks.length : ℚ) * 100
      let quadrant :=
        if overall_auto_pct < 50 ∧ 50 ≤ primary_auto_pct then "upper_left"
        else if 50 ≤ overall_auto_pct ∧ 50 ≤ primary_auto_pct then "upper_right"
        else if overall_auto_pct < 50 ∧ primary_auto_pct < 50 then "lower_left"
        else "lower_right"
      match automation_matrix_rows fd ks with
      | .error e => .error e
      | .ok rest =>
          .ok
            ({ category := k
               overall_automation_pct := round1 overall_auto_pct
               primary_automation_pct := round1 primary_auto_pct
               total_tasks := total_tasks
               primary_tasks := primary_tasks.length
               total_jobs := group.length
               quadrant := quadrant } :: rest)
    else .error ()

/-- Model of `get_automation_matrix`: group the filtered view by
`level_4_name` (NaN keys dropped by `groupby`, keys in sorted order) and run
the per-group loop; any group whose task frame lacks a required column makes
the whole route fail with the uncaught `KeyError`. -/
def get_automation_matrix (records : List JobRecord) (category : Option String)
    (level : String) : Except Unit (List MatrixEntry) :=
  let fd := filter_view records level category
  automation_matrix_rows fd (sortStrs (firstSeen (fd.filterMap (·.level_4_name))))

/-- Node dict of the D3 hierarchy payload.  `value`/`job_count` are `none`
when the corresponding dict key is absent (internal nodes before the rollup;
the code reads them with `.get(key, 0)`), and the build gives a leaf dict no
`children` key while internal dicts always carry a children list — the rollup
test `children not in node or not node[children]` therefore collapses to
`children = []` here. -/
inductive HNode where
  | mk (name : String) (value : Option ℚ) (job_count : Option ℕ)
      (children : List HNode) : HNode

/-- Name of a node dict. -/
def HNode.name : HNode → String
  | .mk n _ _ _ => n

/-- Stored `value` of a node dict (`none` when the key is absent). -/
def HNode.value : HNode → Option ℚ
  | .mk _ v _ _ => v

/-- Stored `job_count` of a node dict (`none` when the key is absent). -/
def HNode.job_count : HNode → Option ℕ
  | .mk _ _ j _ => j

/-- Children list of a node dict. -/
def HNode.children : HNode → List HNode
  | .mk _ _ _ cs => cs

mutual

/-- Model of the recursive `calculate_parent_averages`: a leaf-like node
(no children) returns its values read with a 0 default; otherwise the children
are resolved first, a zero-count child contributes to neither running total,
the node is updated in place with the weighted mean (0 on zero total weight),
and the pair is returned.  The first component is the updated node. -/
def calculate_parent_averages : HNode → HNode × ℚ × ℕ
  | .mk n v jc cs =>
    if cs.isEmpty then (.mk n v jc cs, (v.getD 0, jc.getD 0))
    else
      let rs := calculate_parent_averages_list cs
      let total_jobs : ℕ :=
        rs.foldl (fun acc r => if 0 < r.2.2 then acc + r.2.2 else acc) 0
      let total_weighted_score : ℚ :=
        rs.foldl (fun acc r => if 0 < r.2.2 then acc + r.2.1 * (r.2.2 : ℚ) else acc) 0
      let v2 : ℚ :=
        if 0 < total_jobs then
          round1 (total_weighted_score / (total_jobs : ℚ))
        else 0
      (.mk n (some v2) (some total_jobs) (rs.map Prod.fst), (v2, total_jobs))

/-- The recursive calls of `calculate_parent_averages` over a children list. -/
def calculate_parent_averages_list : List HNode → List (HNode × ℚ × ℕ)
  | [] => []
  | c :: cs => calculate_parent_averages c :: calculate_parent_averages_list cs

end

/-- One row of `hierarchy_stats`: the `groupby` over the four name columns
with mean `auto_score` and a `Job_Title` count.  pandas `groupby` keeps its
default `dropna=True`, so a record with a NaN in any of the four grouping
columns belongs to no group and is absent from these rows entirely. -/
structure StatRow where
  level_1_name : String
  level_2_name : String
  level_3_name : String
  level_4_name : String
  value : ℚ
  job_count : ℕ
deriving DecidableEq

/-- The four grouping keys of a record, present only when none is NaN
(the `dropna` of `groupby`). -/
def groupKey (r : JobRecord) : Option (String × String × String × String) :=
  match r.level_1_name, r.level_2_name, r.level_3_name, r.level_4_name with
  | some a, some b, some c, some d => some (a, b, c, d)
  | _, _, _, _ => none

/-- Distinct group keys in first-seen order. -/
def groupKeys (records : List JobRecord) :
    List (String × String × String × String) :=
  (records.filterMap groupKey).foldl
    (fun acc k => if k ∈ acc then acc else acc ++ [k]) []

/-- Model of the `hierarchy_stats` frame: one row per distinct fully-named
taxonomy path, carrying the mean `auto_score` of the group and its size.  (pandas
emits groups in sorted key order; row order does not affect the tree values
proved below.) -/
def hierarchy_stats (records : List JobRecord) : List StatRow :=
  (groupKeys records).map fun k =>
    let g := records.filter fun r => groupKey r == some k
    { level_1_name := k.1
      level_2_name := k.2.1
      level_3_name := k.2.2.1
      level_4_name := k.2.2.2
      value := (g.map (·.auto_score)).sum / (g.length : ℚ)
      job_count := g.length }

/-- Walk/extend the level-1..3 path of a row below `node` (the node-map
find-or-create keyed by the full path, with a fresh child appended at the end
of the children list of its parent), then append the level-4 leaf dict under the final
node.  Recursion is on the remaining path. -/
def attachLeaf (path : List String) (leaf : HNode) : HNode → HNode
  | .mk n v jc cs =>
    match path with
    | [] => .mk n v jc (cs ++ [leaf])
    | p :: ps =>
        if cs.any fun c => c.name = p then
          .mk n v jc (cs.map fun c =>
            if c.name = p then attachLeaf ps leaf c else c)
        else
          .mk n v jc (cs ++ [attachLeaf ps leaf (.mk p none none [])])

/-- Insert one `hierarchy_stats` row into the tree: its level-1..3 names form
the path (all present after the `groupby` dropna, so the per-level
`pd.isna` skips never fire), and the level-4 leaf carries the rounded group
mean and the group size. -/
def insertRow (t : HNode) (row : StatRow) : HNode :=
  attachLeaf [row.level_1_name, row.level_2_name, row.level_3_name]
    (.mk row.level_4_name (some (round1 row.value)) (some row.job_count) []) t

/-- Model of `get_hierarchy_tree_data`: build the tree from the grouped rows
under the fixed root, then run the bottom-up rollup from the root. -/
def get_hierarchy_tree_data (records : List JobRecord) : HNode :=
  let root : HNode := .mk "All Jobs" none none []
  let built := (hierarchy_stats records).foldl insertRow root
  (calculate_parent_averages built).1

/-- Level-4 leaf A of the synthetic rollup example: score 80, 10 jobs. -/
def exampleLeafA : HNode := .mk "A" (some 80) (some 10) []

/-- Level-4 leaf B of the synthetic rollup example: score 20, 5 jobs. -/
def exampleLeafB : HNode := .mk "B" (some 20) (some 5) []

/-- Level-3 parent of exactly the two synthetic leaves, before the rollup. -/
def exampleParent : HNode := .mk "Parent" none none [exampleLeafA, exampleLeafB]

/-- A record whose level-2 taxonomy name is missing but whose other levels are
present, with valid scores. -/
def recMissingLevel2 : JobRecord :=
  ⟨"J1", "d", some "A", none, some "C", some "D", none, 50, 50, []⟩

/-- A record store holding the single title `Engineer`. -/
def engineerRecord : JobRecord :=
  ⟨"Engineer", "builds things", some "A", some "B", some "C", some "D",
    some "4.1", 42, 57, [⟨some "Automatable", none, none, none⟩]⟩

/-- A raw row with numeric scores whose task payload is a string that starts
with a bracket but is not valid JSON (`json.loads` raises on it). -/
def rawMalformedJson : RawRecord :=
  ⟨"J1", "d", some "A", some "B", some "C", some "D", none,
    some 50, some 50, .str true none⟩

/-- A raw row with numeric scores whose task payload is a malformed string
that does not start with a bracket (caught by the `startswith` guard). -/
def rawNotBracket : RawRecord :=
  ⟨"J2", "d", some "A", some "B", some "C", some "D", none,
    some 50, some 50, .str false none⟩

/-- A record in level-4 category `X` with a low score. -/
def recX : JobRecord :=
  ⟨"JX", "", some "L1A", some "L2A", some "L3A", some "X", none, 10, 10, []⟩

/-- A record in level-4 category `Y` with a high score. -/
def recY : JobRecord :=
  ⟨"JY", "", some "L1B", some "L2B", some "L3B", some "Y", none, 70, 70, []⟩

/-- A one-record store used to instantiate universally quantified contracts. -/
def oneRecord : JobRecord :=
  ⟨"Solo", "", some "A", some "B", some "C", some "X", none, 10, 20, []⟩

/-- A job with a single primary automatable task (all three task-frame
columns present) and no secondary or ancillary tasks. -/
def singlePrimaryJob : JobRecord :=
  ⟨"P", "", none, none, none, some "X", none, 50, 50,
    [⟨some "Automatable", some "primary", none, some []⟩]⟩

/-- A task carrying no `automatability_flag` key at all (its class and
question keys are present). -/
def noFlagTask : JobTask := ⟨none, some "primary", none, some []⟩

/-- A job whose only task lacks the `automatability_flag` key: the task frame
of its view has no `automatability_flag` column. -/
def noFlagJob : JobRecord :=
  ⟨"NF", "", none, none, none, some "X", none, 50, 50, [noFlagTask]⟩

/-- A task carrying the `automatability_flag` key with value `Automatable`. -/
def autoTask : JobTask := ⟨some "Automatable", some "primary", none, none⟩

/-- A job mixing a flag-less task with a flagged one, so the task frame of
its view has all task columns. -/
def mixedJob : JobRecord :=
  ⟨"MX", "", none, none, none, some "X", none, 50, 50, [noFlagTask, autoTask]⟩

lemma qfloor_intCast (n : ℤ) : qfloor (n : ℚ) = n := by
  simp [qfloor]

lemma rhe_intCast (n : ℤ) : rhe (n : ℚ) = n := by
  simp [rhe, qfloor_intCast]

lemma round1_intCast (n : ℤ) : round1 (n : ℚ) = (n : ℚ) := by
  have h : ((n : ℚ)) * 10 = ((n * 10 : ℤ) : ℚ) := by push_cast; ring
  rw [round1, h, rhe_intCast]
  push_cast
  ring

lemma round1_natCast (n : ℕ) : round1 (n : ℚ) = (n : ℚ) := by
  exact_mod_cast round1_intCast (n : ℤ)

lemma round1_zero : round1 0 = 0 := by
  simpa using round1_intCast 0

/-- Claim C3: a job-detail lookup for a title matching no record does not
produce the `Job not found` 404 body; the `.iloc[0]` selection raises an
uncaught `IndexError` first (an HTTP 500), and the 404 branch is unreachable
for every store and title. -/
theorem job_detail_unknown_title_crashes :
    get_job_detail [engineerRecord] "Plumber" = .indexError ∧
    get_job_detail [engineerRecord] "Plumber" ≠ .notFound ∧
    (∀ (records : List JobRecord) (t : String),
      get_job_detail records t ≠ .notFound) := by
  refine ⟨rfl, by decide, ?_⟩
  intro records t
  unfold get_job_detail
  rcases h : records.filter fun r => r.job_title == t with _ | ⟨r, rest⟩ <;>
    simp [h]

/-- Claim C4: a record with numeric scores whose task payload is a
bracket-initial string that is not valid JSON makes the whole load fail
(`json.loads` raises inside `apply`, the outer handler reports failure and no
data is loaded), rather than retaining the record with an empty task list;
by contrast a malformed payload that does not start with a bracket is
replaced by an empty task list and load succeeds. -/
theorem load_malformed_bracket_payload_fails_load :
    load_job_data [rawMalformedJson] = none ∧
    load_job_data [rawNotBracket] = some [toJobRecord rawNotBracket []] ∧
    (toJobRecord rawNotBracket []).tasks = [] := by
  exact ⟨rfl, rfl, rfl⟩

/-- Claim C2: a record lacking its level-2 name is dropped from the grouped
`hierarchy_stats` entirely (pandas `groupby` keeps `dropna=True`), so it
contributes to no node of the hierarchy tree — not even to level-1
aggregation: the rolled-up tree for a store holding only such a record is the
bare root with no children. -/
theorem hierarchy_missing_level_record_dropped_entirely :
    hierarchy_stats [recMissingLevel2] = [] ∧
    get_hierarchy_tree_data [recMissingLevel2] = .mk "All Jobs" none none [] ∧
    (get_hierarchy_tree_data [recMissingLevel2]).children = [] := by
  refine ⟨rfl, ?_, ?_⟩ <;>
    simp [get_hierarchy_tree_data, hierarchy_stats, groupKeys, groupKey,
      recMissingLevel2, calculate_parent_averages, HNode.children]

/-- Claim C5 counterexample: the risk-distribution route does not reject the
unknown level 7 — with a category given it silently answers over the whole
unfiltered dataset (total 2), while the same query at the valid level 4
filters down to the single matching record. -/
theorem risk_distribution_unknown_level_not_rejected :
    get_risk_distribution [recX, recY] (some "X") "7" =
      { low_risk := 1, medium_risk := 0, high_risk := 1, total := 2 } ∧
    get_risk_distribution [recX, recY] (some "X") "4" =
      { low_risk := 1, medium_risk := 0, high_risk := 0, total := 1 } := by
  exact ⟨rfl, rfl⟩

/-- Claim C5 amended: only the categories route rejects an unknown taxonomy
level with a caller error; the shared filtering block of the
risk-distribution, jobs and task-analysis routes leaves the dataset
unfiltered when the level column is unknown, so those routes answer over the
full dataset exactly as if no category had been passed. -/
theorem unknown_level_only_categories_rejects (records : List JobRecord)
    (level : String) (c : String) (h : levelColumnKnown level = false) :
    get_categories records level =
      .error ("Level " ++ level ++ " not available") ∧
    filter_view records level (some c) = records ∧
    get_risk_distribution records (some c) level =
      get_risk_distribution records none level ∧
    get_task_analysis records (some c) level =
      get_task_analysis records none level ∧
    (∀ page per_page,
      get_jobs records (some c) level page per_page =
      get_jobs records none level page per_page) := by
  have hf : filter_view records level (some c) = records := by
    simp [filter_view, h]
  have hf2 : filter_view records level (some c) = filter_view records level none := hf
  refine ⟨by simp [get_categories, h], hf, ?_, ?_, ?_⟩
  · simp only [get_risk_distribution, hf2]
  · simp only [get_task_analysis, hf2]
  · intro page per_page
    simp only [get_jobs, hf2]

/-- Claim C5 witness: instantiation of the amended contract at the concrete
unknown level 7. -/
theorem unknown_level_only_categories_rejects_witness :
    levelColumnKnown "7" = false ∧
    get_categories [recX] "7" = .error ("Level " ++ "7" ++ " not available") ∧
    filter_view [recX] "7" (some "X") = [recX] :=
  ⟨rfl, (unknown_level_only_categories_rejects [recX] "7" "X" rfl).1,
    (unknown_level_only_categories_rejects [recX] "7" "X" rfl).2.1⟩

/-- Claim C6 counterexample: on an empty (but successfully loaded) dataset the
means of the stats route are NaN, not the number 0 — `round` of the NaN that
`Series.mean()` returns on an empty series is still NaN. -/
theorem stats_empty_frame_means_are_nan :
    (get_stats []).avg_auto_score = none ∧
    (get_stats []).avg_manual_score = none ∧
    (get_stats []).avg_auto_score ≠ some 0 := by
  refine ⟨rfl, rfl, by simp [get_stats, seriesMean]⟩

/-- Claim C6 amended: the paginated-jobs `category_stats` always reports the
job count and one-decimal means with the number 0 for an empty view, and on a
non-empty dataset the stats route reports exactly those same rounded means;
only on an empty dataset do the stats-route means degrade to NaN instead
of 0. -/
theorem scalar_stats_rounding (records : List JobRecord) (h : records ≠ []) :
    (category_stats records).total_jobs = records.length ∧
    (category_stats records).avg_auto_score =
      round1 ((records.map (·.auto_score)).sum / (records.length : ℚ)) ∧
    (category_stats records).avg_manual_score =
      round1 ((records.map (·.manual_score)).sum / (records.length : ℚ)) ∧
    (get_stats records).avg_auto_score =
      some ((category_stats records).avg_auto_score) ∧
    (get_stats records).avg_manual_score =
      some ((category_stats records).avg_manual_score) ∧
    category_stats [] = ⟨0, 0, 0⟩ ∧
    (get_stats []).avg_auto_score = none := by
  have he : records.isEmpty = false := by
    cases records with
    | nil => cases h rfl
    | cons a l => rfl
  refine ⟨rfl, by simp [category_stats, he], by simp [category_stats, he],
    ?_, ?_, rfl, rfl⟩ <;>
  · simp [get_stats, category_stats, seriesMean, he]
    exact ⟨_, ⟨h, rfl⟩, rfl⟩

/-- Claim C6 witness: instantiation of the stats contract at a one-record
store. -/
theorem scalar_stats_rounding_witness :
    ([oneRecord] ≠ ([] : List JobRecord)) ∧
    (category_stats [oneRecord]).avg_auto_score =
      round1 (([oneRecord].map (·.auto_score)).sum / (([oneRecord] : List JobRecord).length : ℚ)) :=
  ⟨by simp, (scalar_stats_rounding [oneRecord] (by simp)).2.1⟩

/-- Claim C9: requesting any page at or beyond the end of the filtered view
returns an empty jobs list with `has_more = false` together with the
`category_stats` of the view, not an error. -/
theorem jobs_page_beyond_end_empty (records : List JobRecord)
    (category : Option String) (level : String) (page per_page : ℕ)
    (h1 : 1 ≤ page)
    (h2 : (filter_view records level category).length ≤ (page - 1) * per_page) :
    (get_jobs records category level page per_page).jobs = [] ∧
    (get_jobs records category level page per_page).has_more = false ∧
    (get_jobs records category level page per_page).category_stats =
      category_stats (filter_view records level category) := by
  refine ⟨?_, ?_, rfl⟩
  · simp only [get_jobs]
    rw [List.drop_eq_nil_of_le h2]
    simp
  · have h3 : (filter_view records level category).length ≤
        (page - 1) * per_page + per_page :=
      le_trans h2 (Nat.le_add_right _ _)
    simp only [get_jobs, decide_eq_false_iff_not]
    exact Nat.not_lt.mpr h3

/-- Claim C9 witness: page 2 at 4 per page over a single filtered record. -/
theorem jobs_page_beyond_end_empty_witness :
    1 ≤ 2 ∧ (filter_view [oneRecord] "4" none).length ≤ (2 - 1) * 4 ∧
    (get_jobs [oneRecord] none "4" 2 4).jobs = [] ∧
    (get_jobs [oneRecord] none "4" 2 4).has_more = false := by
  have h := jobs_page_beyond_end_empty [oneRecord] none "4" 2 4
    (by norm_num) (by norm_num [filter_view])
  exact ⟨by norm_num, by norm_num [filter_view], h.1, h.2.1⟩

lemma risk_masks_partition (l : List JobRecord) :
    (l.filter isLow).length + (l.filter isMedium).length +
      (l.filter isHigh).length = l.length := by
  induction l with
  | nil => simp
  | cons r t ih =>
    simp only [List.filter_cons]
    by_cases h30 : r.auto_score < 30
    · have e1 : isLow r = true := by simp [isLow, h30]
      have e2 : isMedium r = false := by
        simp only [isMedium, Bool.and_eq_false_iff, decide_eq_false_iff_not, not_le]
        exact Or.inl h30
      have e3 : isHigh r = false := by
        simp only [isHigh, decide_eq_false_iff_not, not_le]
        linarith
      simp [e1, e2, e3]
      omega
    · by_cases h60 : r.auto_score < 60
      · have e1 : isLow r = false := by
          simp only [isLow, decide_eq_false_iff_not, not_lt]
          linarith
        have e2 : isMedium r = true := by
          simp only [isMedium, Bool.and_eq_true, decide_eq_true_eq]
          exact ⟨le_of_not_lt h30, h60⟩
        have e3 : isHigh r = false := by
          simp only [isHigh, decide_eq_false_iff_not, not_le]
          linarith
        simp [e1, e2, e3]
        omega
      · have e1 : isLow r = false := by
          simp only [isLow, decide_eq_false_iff_not, not_lt]
          linarith
        have e2 : isMedium r = false := by
          simp only [isMedium, Bool.and_eq_false_iff, decide_eq_false_iff_not, not_lt]
          exact Or.inr (le_of_not_lt h60)
        have e3 : isHigh r = true := by
          simp only [isHigh, decide_eq_true_eq]
          linarith
        simp [e1, e2, e3]
        omega

/-- Claim C8: the three risk masks partition every filtered view — the bin
counts always sum to the total of the view — and the boundary scores land in the
upper bin: exactly 30 is medium (not low) and exactly 60 is high (not
medium). -/
theorem risk_distribution_bins_partition :
    (∀ (records : List JobRecord) (category : Option String) (level : String),
      (get_risk_distribution records category level).low_risk +
        (get_risk_distribution records category level).medium_risk +
        (get_risk_distribution records category level).high_risk =
        (get_risk_distribution records category level).total ∧
      (get_risk_distribution records category level).total =
        (filter_view records level category).length) ∧
    (∀ r : JobRecord, r.auto_score = 30 →
      isLow r = false ∧ isMedium r = true ∧ isHigh r = false) ∧
    (∀ r : JobRecord, r.auto_score = 60 →
      isLow r = false ∧ isMedium r = false ∧ isHigh r = true) := by
  refine ⟨?_, ?_, ?_⟩
  · intro records category level
    exact ⟨risk_masks_partition _, rfl⟩
  · intro r h
    refine ⟨?_, ?_, ?_⟩ <;> simp [isLow, isMedium, isHigh, h] <;> norm_num
  · intro r h
    refine ⟨?_, ?_, ?_⟩ <;> simp [isLow, isMedium, isHigh, h] <;> norm_num

/-- Claim C8 witness: the partition and boundary facts at a concrete
two-record view and at concrete boundary records. -/
theorem risk_distribution_bins_partition_witness :
    ((get_risk_distribution [recX, recY] none "4").low_risk +
      (get_risk_distribution [recX, recY] none "4").medium_risk +
      (get_risk_distribution [recX, recY] none "4").high_risk =
      (get_risk_distribution [recX, recY] none "4").total) ∧
    ((⟨"b30", "", none, none, none, none, none, 30, 0, []⟩ :
        JobRecord).auto_score = 30 ∧
      isMedium ⟨"b30", "", none, none, none, none, none, 30, 0, []⟩ = true) ∧
    ((⟨"b60", "", none, none, none, none, none, 60, 0, []⟩ :
        JobRecord).auto_score = 60 ∧
      isHigh ⟨"b60", "", none, none, none, none, none, 60, 0, []⟩ = true) :=
  ⟨(risk_distribution_bins_partition.1 [recX, recY] none "4").1,
    ⟨rfl, (risk_distribution_bins_partition.2.1 _ rfl).2.1⟩,
    ⟨rfl, (risk_distribution_bins_partition.2.2 _ rfl).2.2⟩⟩

lemma pos_of_not_isEmpty {α : Type} {l : List α} (h : l.isEmpty = false) :
    0 < l.length := by
  cases l with
  | nil => simp at h
  | cons a t => simp

lemma round1_eq_self_of_intCast {q : ℚ} {n : ℤ} (h : q = (n : ℚ)) :
    round1 q = q := by
  rw [h, round1_intCast]

lemma lookup_automation_by_type (ts : List JobTask) (tt : String)
    (htt : tt ∈ (["primary", "secondary", "ancillary"] : List String)) :
    (automation_by_type ts).lookup tt =
      if (typeTasks ts tt).isEmpty then none
      else some (round1 ((countAutomatable (typeTasks ts tt) : ℚ) /
        ((typeTasks ts tt).length : ℚ) * 100)) := by
  have k12 : (("primary" : String) == "secondary") = false := by decide
  have k13 : (("primary" : String) == "ancillary") = false := by decide
  have k21 : (("secondary" : String) == "primary") = false := by decide
  have k23 : (("secondary" : String) == "ancillary") = false := by decide
  have k31 : (("ancillary" : String) == "primary") = false := by decide
  have k32 : (("ancillary" : String) == "secondary") = false := by decide
  fin_cases htt <;>
    by_cases h1 : typeTasks ts "primary" = [] <;>
    by_cases h2 : typeTasks ts "secondary" = [] <;>
    by_cases h3 : typeTasks ts "ancillary" = [] <;>
      simp [automation_by_type, h1, h2, h3, List.lookup, k12, k13, k21, k23,
        k31, k32, List.isEmpty_iff, List.length_pos]

/-- Claim C7 counterexample: over a view whose only task is primary, the
cross-tab field `automation_by_type` has no entry at all for `secondary` or
`ancillary` — a class with zero matching tasks is absent from the mapping,
not reported as the value 0. -/
theorem task_analysis_zero_task_class_absent :
    (get_task_analysis [singlePrimaryJob] none "4").byType.lookup "secondary"
      = none ∧
    (get_task_analysis [singlePrimaryJob] none "4").byType.lookup "ancillary"
      = none ∧
    (get_task_analysis [singlePrimaryJob] none "4").byType =
      [("primary", 100)] := by
  have hb : (get_task_analysis [singlePrimaryJob] none "4").byType =
      [("primary",
        if 0 < (typeTasks (all_tasks [singlePrimaryJob]) "primary").length then
          round1
            ((countAutomatable (typeTasks (all_tasks [singlePrimaryJob]) "primary") : ℚ) /
              ((typeTasks (all_tasks [singlePrimaryJob]) "primary").length : ℚ) * 100)
        else 0)] := rfl
  have hlen : (typeTasks (all_tasks [singlePrimaryJob]) "primary").length = 1 := rfl
  have hcnt : countAutomatable (typeTasks (all_tasks [singlePrimaryJob]) "primary") = 1 := rfl
  refine ⟨rfl, rfl, ?_⟩
  rw [hb, hlen, hcnt]
  norm_num
  simpa using round1_intCast 100

/-- Claim C7 amended: for a view with at least one task whose task frame
carries the `automatability_flag`, `importance_classification` and `question`
columns (each key present on at least one task of the table — otherwise the
route crashes with an uncaught `KeyError` on the missing column), each of the
three fixed importance classes with at least one matching task (matched
case-insensitively) is reported with automation percentage
`round(automatable / total * 100, 1)`, while a class with zero matching tasks
is omitted from `automation_by_type` entirely (no entry), rather than
reported as 0. -/
theorem task_analysis_by_type_contract (records : List JobRecord)
    (category : Option String) (level : String)
    (h : all_tasks (filter_view records level category) ≠ [])
    (hflag : hasFlagColumn (all_tasks (filter_view records level category)) = true)
    (hclass : hasClassColumn (all_tasks (filter_view records level category)) = true)
    (hquestion : hasQuestionColumn (all_tasks (filter_view records level category)) = true) :
    ∀ tt ∈ (["primary", "secondary", "ancillary"] : List String),
      (get_task_analysis records category level).byType.lookup tt =
        (if (typeTasks (all_tasks (filter_view records level category)) tt).isEmpty
         then none
         else some (round1
          ((countAutomatable
              (typeTasks (all_tasks (filter_view records level category)) tt) : ℚ) /
            ((typeTasks (all_tasks (filter_view records level category)) tt).length : ℚ)
            * 100))) := by
  intro tt htt
  have he : (all_tasks (filter_view records level category)).isEmpty = false := by
    cases hx : all_tasks (filter_view records level category) with
    | nil => exact absurd hx h
    | cons a t => rfl
  have hby : (get_task_analysis records category level).byType =
      automation_by_type (all_tasks (filter_view records level category)) := by
    simp only [get_task_analysis]
    rw [if_neg (by simpa [List.isEmpty_iff] using he),
      if_pos (by simp [hflag, hclass, hquestion])]
    rfl
  rw [hby]
  exact lookup_automation_by_type _ tt htt

/-- Claim C7 witness: the contract instantiated at the single-primary-task
store (all three task columns present) — the primary class reports its
rounded percentage and the secondary class is absent. -/
theorem task_analysis_by_type_contract_witness :
    (all_tasks (filter_view [singlePrimaryJob] "4" none) ≠ []) ∧
    hasFlagColumn (all_tasks (filter_view [singlePrimaryJob] "4" none)) = true ∧
    (get_task_analysis [singlePrimaryJob] none "4").byType.lookup "primary" =
      some (round1
        ((countAutomatable
            (typeTasks (all_tasks (filter_view [singlePrimaryJob] "4" none)) "primary") : ℚ) /
          ((typeTasks (all_tasks (filter_view [singlePrimaryJob] "4" none)) "primary").length : ℚ)
          * 100)) := by
  have h : all_tasks (filter_view [singlePrimaryJob] "4" none) ≠ [] := by
    simp [all_tasks, filter_view, singlePrimaryJob]
  have happ := task_analysis_by_type_contract [singlePrimaryJob] none "4" h
    rfl rfl rfl "primary" (by simp)
  refine ⟨h, rfl, ?_⟩
  rw [happ]
  rfl

/-- Claim C10 counterexample: over the store whose only task lacks the
`automatability_flag` key, the task frame of the view has no such column at
all, so both the task cross-tab and the automation matrix crash at the column
index with an uncaught `KeyError` (HTTP 500) — the flag-less task is counted
nowhere, no total or non-automatable count is ever produced. -/
theorem absent_flag_all_absent_column_crashes :
    get_task_analysis [noFlagJob] none "4" = .keyError ∧
    (get_task_analysis [noFlagJob] none "4").autoStatus = none ∧
    get_automation_matrix [noFlagJob] none "4" = .error () :=
  ⟨rfl, rfl, rfl⟩

/-- Claim C10 amended: provided the task frame of the view carries the
`automatability_flag` column (the key occurs on at least one task — with it
absent everywhere both routes crash with an uncaught `KeyError` instead of
counting anything), a task whose own flag key is absent reads as NaN,
compares unequal to `Automatable`, and is counted toward the total task count
and the non-automatable side, never toward the automatable count or
percentage numerators — generally for the shared `Automatable` mask (it skips
NaN flags while the total and the `total - automatable` difference grow), and
concretely at a mixed store where the flag-less task drives both totals to 2
while only the flagged task counts as automatable (percentages 50, not
100). -/
theorem absent_flag_counts_non_automatable :
    (∀ (t : JobTask) (ts : List JobTask), t.automatability_flag = none →
      countAutomatable (t :: ts) = countAutomatable ts ∧
      (t :: ts).length - countAutomatable (t :: ts) =
        (ts.length - countAutomatable ts) + 1) ∧
    (get_task_analysis [mixedJob] none "4").autoStatus = some (1, 1) ∧
    get_automation_matrix [mixedJob] none "4" =
      .ok [{ category := "X", overall_automation_pct := 50,
             primary_automation_pct := 50, total_tasks := 2,
             primary_tasks := 2, total_jobs := 1,
             quadrant := "upper_right" }] := by
  refine ⟨?_, rfl, ?_⟩
  · intro t ts h
    have hc : countAutomatable (t :: ts) = countAutomatable ts := by
      simp [countAutomatable, List.filter_cons, h]
    have hle : countAutomatable ts ≤ ts.length :=
      List.length_filter_le _ _
    refine ⟨hc, ?_⟩
    rw [hc]
    simp only [List.length_cons]
    omega
  · have hm : get_automation_matrix [mixedJob] none "4" =
        .ok [{ category := "X",
               overall_automation_pct :=
                 round1 (((1:ℕ) : ℚ) / ((2:ℕ) : ℚ) * 100),
               primary_automation_pct :=
                 round1 (((1:ℕ) : ℚ) / ((2:ℕ) : ℚ) * 100),
               total_tasks := 2, primary_tasks := 2, total_jobs := 1,
               quadrant :=
                 if ((1:ℕ) : ℚ) / ((2:ℕ) : ℚ) * 100 < 50 ∧
                     50 ≤ ((1:ℕ) : ℚ) / ((2:ℕ) : ℚ) * 100 then "upper_left"
                 else if 50 ≤ ((1:ℕ) : ℚ) / ((2:ℕ) : ℚ) * 100 ∧
                     50 ≤ ((1:ℕ) : ℚ) / ((2:ℕ) : ℚ) * 100 then "upper_right"
                 else if ((1:ℕ) : ℚ) / ((2:ℕ) : ℚ) * 100 < 50 ∧
                     ((1:ℕ) : ℚ) / ((2:ℕ) : ℚ) * 100 < 50 then "lower_left"
                 else "lower_right" }] := rfl
    rw [hm]
    have hq : ((1:ℕ) : ℚ) / ((2:ℕ) : ℚ) * 100 = 50 := by norm_num
    have h50 : round1 (50 : ℚ) = 50 := by simpa using round1_intCast 50
    rw [hq]
    norm_num [h50]

/-- Claim C10 witness: the flag-less task inserted into a task table that
already carries the flag column raises the total and the non-automatable
difference, not the automatable count. -/
theorem absent_flag_counts_non_automatable_witness :
    noFlagTask.automatability_flag = none ∧
    countAutomatable [noFlagTask, autoTask] = countAutomatable [autoTask] ∧
    [noFlagTask, autoTask].length - countAutomatable [noFlagTask, autoTask] =
      ([autoTask].length - countAutomatable [autoTask]) + 1 :=
  ⟨rfl, (absent_flag_counts_non_automatable.1 noFlagTask [autoTask] rfl).1,
    (absent_flag_counts_non_automatable.1 noFlagTask [autoTask] rfl).2⟩

lemma HNode.name_mk (n : String) (v : Option ℚ) (jc : Option ℕ)
    (cs : List HNode) : (HNode.mk n v jc cs).name = n := rfl

lemma HNode.value_mk (n : String) (v : Option ℚ) (jc : Option ℕ)
    (cs : List HNode) : (HNode.mk n v jc cs).value = v := rfl

lemma HNode.job_count_mk (n : String) (v : Option ℚ) (jc : Option ℕ)
    (cs : List HNode) : (HNode.mk n v jc cs).job_count = jc := rfl

lemma HNode.children_mk (n : String) (v : Option ℚ) (jc : Option ℕ)
    (cs : List HNode) : (HNode.mk n v jc cs).children = cs := rfl

lemma cpaList_eq_map (cs : List HNode) :
    calculate_parent_averages_list cs = cs.map calculate_parent_averages := by
  induction cs with
  | nil => simp [calculate_parent_averages_list]
  | cons c t ih => simp [calculate_parent_averages_list, ih]

lemma cpa_snd (t : HNode) :
    (calculate_parent_averages t).2 =
      (((calculate_parent_averages t).1.value).getD 0,
       ((calculate_parent_averages t).1.job_count).getD 0) := by
  cases t with
  | mk n v jc cs =>
    cases cs with
    | nil => simp [calculate_parent_averages, HNode.value, HNode.job_count]
    | cons c rest =>
      simp [calculate_parent_averages, HNode.value, HNode.job_count]

lemma foldl_guard_count (l : List (HNode × ℚ × ℕ)) (a : ℕ) :
    l.foldl (fun acc r => if 0 < r.2.2 then acc + r.2.2 else acc) a =
      a + (l.map fun r => r.2.2).sum := by
  induction l generalizing a with
  | nil => simp
  | cons x t ih =>
    simp only [List.foldl_cons, List.map_cons, List.sum_cons]
    rcases Nat.eq_zero_or_pos x.2.2 with h | h
    · rw [if_neg (by omega), ih]
      omega
    · rw [if_pos h, ih]
      omega

lemma foldl_guard_weight (l : List (HNode × ℚ × ℕ)) (a : ℚ) :
    l.foldl (fun acc r => if 0 < r.2.2 then acc + r.2.1 * (r.2.2 : ℚ) else acc) a
      = a + (l.map fun r => r.2.1 * (r.2.2 : ℚ)).sum := by
  induction l generalizing a with
  | nil => simp
  | cons x t ih =>
    simp only [List.foldl_cons, List.map_cons, List.sum_cons]
    rcases Nat.eq_zero_or_pos x.2.2 with h | h
    · rw [if_neg (by omega), ih, h]
      push_cast
      ring
    · rw [if_pos h, ih]
      ring

lemma cpa_fold_jobs (cs : List HNode) :
    (calculate_parent_averages_list cs).foldl
      (fun acc r => if 0 < r.2.2 then acc + r.2.2 else acc) 0 =
    (((calculate_parent_averages_list cs).map Prod.fst).map
      fun x => x.job_count.getD 0).sum := by
  rw [foldl_guard_count, Nat.zero_add, cpaList_eq_map]
  simp only [List.map_map]
  exact congrArg (fun fn => (List.map fn cs).sum)
    (funext fun x => by simp only [Function.comp_apply]; rw [cpa_snd])

lemma cpa_fold_weight (cs : List HNode) :
    (calculate_parent_averages_list cs).foldl
      (fun acc r => if 0 < r.2.2 then acc + r.2.1 * (r.2.2 : ℚ) else acc) 0 =
    (((calculate_parent_averages_list cs).map Prod.fst).map
      fun x => x.value.getD 0 * ((x.job_count.getD 0 : ℕ) : ℚ)).sum := by
  rw [foldl_guard_weight, zero_add, cpaList_eq_map]
  simp only [List.map_map]
  exact congrArg (fun fn => (List.map fn cs).sum)
    (funext fun x => by simp only [Function.comp_apply]; rw [cpa_snd])

lemma round1_sixty : round1 (60 : ℚ) = 60 := by
  simpa using round1_intCast 60

/-- Claim C1: after the rollup, every non-leaf node (non-empty children) holds
`job_count = ` the sum of the counts of its resolved children and `value = `
the count-weighted mean of the values of its resolved children rounded to one
decimal place (0 when the counts of the children sum to zero), with children resolved
before the parent; in particular the level-3 parent of the two synthetic
leaves (80, 10 jobs) and (20, 5 jobs) rolls up to 60.0, not the unweighted
mean 50.0. -/
theorem hierarchy_rollup_weighted_mean (n : String) (v : Option ℚ)
    (jc : Option ℕ) (cs : List HNode) (h : cs ≠ []) :
    ((calculate_parent_averages (.mk n v jc cs)).1.children =
      (calculate_parent_averages_list cs).map Prod.fst) ∧
    ((calculate_parent_averages (.mk n v jc cs)).1.job_count =
      some ((((calculate_parent_averages_list cs).map Prod.fst).map
        fun x => x.job_count.getD 0).sum)) ∧
    ((calculate_parent_averages (.mk n v jc cs)).1.value =
      some (
        if 0 < (((calculate_parent_averages_list cs).map Prod.fst).map
            fun x => x.job_count.getD 0).sum then
          round1
            ((((calculate_parent_averages_list cs).map Prod.fst).map
                fun x => x.value.getD 0 * ((x.job_count.getD 0 : ℕ) : ℚ)).sum /
              (Nat.cast ((((calculate_parent_averages_list cs).map
                Prod.fst).map fun x => x.job_count.getD 0).sum) : ℚ))
        else 0)) ∧
    (calculate_parent_averages exampleParent).1.value = some 60 ∧
    (calculate_parent_averages exampleParent).1.value ≠ some 50 := by
  have G : ∀ (m : String) (w : Option ℚ) (wc : Option ℕ) (c : HNode)
      (rest : List HNode),
      ((calculate_parent_averages (.mk m w wc (c :: rest))).1.children =
        (calculate_parent_averages_list (c :: rest)).map Prod.fst) ∧
      ((calculate_parent_averages (.mk m w wc (c :: rest))).1.job_count =
        some ((((calculate_parent_averages_list (c :: rest)).map Prod.fst).map
          fun x => x.job_count.getD 0).sum)) ∧
      ((calculate_parent_averages (.mk m w wc (c :: rest))).1.value =
        some (
          if 0 < (((calculate_parent_averages_list (c :: rest)).map
              Prod.fst).map fun x => x.job_count.getD 0).sum then
            round1
              ((((calculate_parent_averages_list (c :: rest)).map Prod.fst).map
                  fun x => x.value.getD 0 * ((x.job_count.getD 0 : ℕ) : ℚ)).sum /
                (Nat.cast ((((calculate_parent_averages_list (c :: rest)).map
                  Prod.fst).map fun x => x.job_count.getD 0).sum) : ℚ))
          else 0)) := by
    intro m w wc c rest
    refine ⟨?_, ?_, ?_⟩
    · simp [calculate_parent_averages, HNode.children]
    · simp only [calculate_parent_averages, List.isEmpty_cons,
        Bool.false_eq_true, if_false, HNode.job_count_mk]
      rw [cpa_fold_jobs]
    · simp only [calculate_parent_averages, List.isEmpty_cons,
        Bool.false_eq_true, if_false, HNode.value_mk]
      rw [cpa_fold_jobs, cpa_fold_weight]
  have hA : calculate_parent_averages (HNode.mk "A" (some 80) (some 10) []) =
      (HNode.mk "A" (some 80) (some 10) [], 80, 10) := by
    simp [calculate_parent_averages]
  have hB : calculate_parent_averages (HNode.mk "B" (some 20) (some 5) []) =
      (HNode.mk "B" (some 20) (some 5) [], 20, 5) := by
    simp [calculate_parent_averages]
  have hv60 : (calculate_parent_averages exampleParent).1.value = some 60 := by
    have hval := (G "Parent" none none exampleLeafA [exampleLeafB]).2.2
    rw [show exampleParent =
      HNode.mk "Parent" none none [exampleLeafA, exampleLeafB] from rfl]
    rw [hval]
    simp [calculate_parent_averages_list, hA, hB, exampleLeafA, exampleLeafB,
      HNode.job_count_mk, HNode.value_mk]
    norm_num [round1_sixty]
  cases cs with
  | nil => exact absurd rfl h
  | cons c rest =>
    refine ⟨(G n v jc c rest).1, (G n v jc c rest).2.1, (G n v jc c rest).2.2,
      hv60, ?_⟩
    rw [hv60]
    simp only [ne_eq, Option.some.injEq]
    norm_num

/-- Claim C1 witness: the rollup contract instantiated at the synthetic
two-leaf parent. -/
theorem hierarchy_rollup_weighted_mean_witness :
    ([exampleLeafA, exampleLeafB] ≠ ([] : List HNode)) ∧
    (calculate_parent_averages exampleParent).1.value = some 60 :=
  ⟨by simp,
    (hierarchy_rollup_weighted_mean "Parent" none none
      [exampleLeafA, exampleLeafB] (by simp)).2.2.2.1⟩
